import Mathlib

/-!
Verification development for the utility-bill analyzer `src/app.py`.

Embedding conventions:
* Python decimal values are modelled exactly as rationals (`ℚ`); none of the
  checked claims depends on binary floating-point rounding.
* A pandas/Python "missing" value (`None` / `NaN`) is modelled with `Option`
  (for plain columns) and with the explicit `PVal.nan` constructor where a
  pandas arithmetic result can also be infinite (`total_cost / total_usage`
  with a zero divisor yields `inf`, which is *not* NA).
* The regex table `FIELD_PATTERNS` of `app.py` is embedded as one
  hand-translated matcher per field, each a backtracking recogniser on
  `List Char` that follows Python `re` preferences (leftmost search position
  wins, alternatives tried left to right, greedy quantifiers).  For every
  greedy character-class quantifier in these patterns the following literal
  starts with a character outside the class, so the greedy deterministic scan
  used below agrees with the backtracking engine; where an alternative can
  fail late (for example `Taxes` versus `Tax`), the fallback re-runs the whole
  remainder of the pattern, exactly as the engine does.
* `abs(x - mean) > 2 * std` (with `std = sqrt var`) compares two nonnegative
  reals, so it is embedded as the equivalent exact rational comparison
  `(x - mean)^2 > 4 * var`; this avoids an irrational square root while
  defining the very same predicate.
* Python dictionaries are association lists in insertion order; `alookup` is
  dictionary access.
-/

/-- A value stored in one of the per-bill dictionaries of `app.py`:
`None`, a string, a parsed float (exact rational), or a `datetime.date`. -/
inductive PyVal where
  | vNone : PyVal
  | vStr (s : String) : PyVal
  | vFloat (q : ℚ) : PyVal
  | vDate (y m d : ℕ) : PyVal
deriving DecidableEq

/-- Dictionary access on an association list (first binding wins). -/
def alookup (k : String) : List (String × PyVal) → Option PyVal
  | [] => none
  | p :: rest => if p.1 = k then some p.2 else alookup k rest

/-- Python regex `\s` restricted to ASCII (the characters that occur here). -/
def isPySpace (c : Char) : Bool :=
  c = ' ' || c = '\t' || c = '\n' || c = '\r' || c = '\x0B' || c = '\x0C'

/-- Regex `\d`. -/
def isDigitCh (c : Char) : Bool := '0' ≤ c && c ≤ '9'

/-- Regex `\w` (ASCII): letters, digits, underscore. -/
def isWordCh (c : Char) : Bool :=
  isDigitCh c || ('a' ≤ c.toLower && c.toLower ≤ 'z') || c = '_'

/-- The character class `[:\s]` (equivalently `[\s:]`) used by the patterns. -/
def isSpaceColon (c : Char) : Bool := isPySpace c || c = ':'

/-- Consume a literal case-insensitively (`re.IGNORECASE`); returns the rest. -/
def litCI : List Char → List Char → Option (List Char)
  | [], cs => some cs
  | _ :: _, [] => none
  | p :: ps, c :: cs => if c.toLower = p.toLower then litCI ps cs else none

/-- Like `litCI` but also returns the consumed input slice in original case
(`match.group` returns the text as it appears in the input). -/
def takeLitCI : List Char → List Char → Option (List Char × List Char)
  | [], cs => some ([], cs)
  | _ :: _, [] => none
  | p :: ps, c :: cs =>
    if c.toLower = p.toLower then
      (takeLitCI ps cs).map (fun pr => (c :: pr.1, pr.2))
    else none

/-- First-success alternative, the preference order of a regex alternation. -/
def orElseO {α : Type} (a : Option α) (b : Option α) : Option α :=
  match a with
  | some v => some v
  | none => b

/-- Consume one fixed character. -/
def chCon (ch : Char) : List Char → Option (List Char)
  | [] => none
  | c :: cs => if c = ch then some cs else none

/-- Optionally consume one fixed character (`x?`, greedy: prefer to take it).
Deterministic here because in every use the following literal cannot start
with that character. -/
def optCh (ch : Char) : List Char → List Char × List Char
  | [] => ([], [])
  | c :: cs => if c = ch then ([c], cs) else ([], c :: cs)

/-- The numeric capture shape `[\d,]+\.?\d*` (greedy; deterministic because
whatever follows it in the patterns starts with a space, `k`, `c` or the end,
never a digit, comma or dot).  Returns (captured slice, rest). -/
def numGroup (cs : List Char) : Option (List Char × List Char) :=
  let sp1 := cs.span (fun c => isDigitCh c || c = ',')
  if sp1.1.isEmpty then none
  else
    let sp2 := optCh '.' sp1.2
    let sp3 := sp2.2.span isDigitCh
    some (sp1.1 ++ sp2.1 ++ sp3.1, sp3.2)

/-- Embedding of `re.search`: try the pattern at each start position, leftmost match wins. -/
def reSearch {α : Type} (f : List Char → Option α) : List Char → Option α
  | [] => f []
  | c :: cs => orElseO (f (c :: cs)) (reSearch f cs)

/-- Tail `[:\s]*([\d\-\w]+)` of the `account_number` pattern. -/
def accountTail (r : List Char) : Option (List Char) :=
  let r1 := (r.span isSpaceColon).2
  let tok := (r1.span (fun c => isDigitCh c || c = '-' || isWordCh c)).1
  if tok.isEmpty then none else some tok

/-- Pattern `account_number`: `(?:Account\s*(?:Number|#)?[:\s]*)([\d\-\w]+)`. -/
def matchAccountAt (cs : List Char) : Option (List Char) :=
  (litCI ("account".toList) cs).bind (fun r =>
    let r1 := (r.span isPySpace).2
    orElseO ((litCI ("number".toList) r1).bind accountTail)
      (orElseO ((litCI ("#".toList) r1).bind accountTail) (accountTail r1)))

/-- Tail `[:\s]*(.*?)(?:\n|$)` of the `service_address` pattern: the greedy
class eats colons and whitespace (including newlines), then the lazy dot
(which never matches a newline) captures up to the next newline or the end. -/
def addressTail (r : List Char) : Option (List Char) :=
  let r1 := (r.span isSpaceColon).2
  some ((r1.span (fun c => c ≠ '\n')).1)

/-- Pattern `service_address`: `(?:Service\s*Address|Address)[:\s]*(.*?)(?:\n|$)`. -/
def matchServiceAt (cs : List Char) : Option (List Char) :=
  orElseO
    (((litCI ("service".toList) cs).bind (fun r =>
        litCI ("address".toList) ((r.span isPySpace).2))).bind addressTail)
    ((litCI ("address".toList) cs).bind addressTail)

/-- Pattern `total_usage`:
`(?:Total\s*(?:Usage|Consumption)[\s:]*)([\d,]+\.?\d*)\s*(kWh|CCF)`.
Returns (group 1, group 2) where group 2 keeps the input's own casing. -/
def matchUsageAt (cs : List Char) : Option (List Char × List Char) :=
  (litCI ("total".toList) cs).bind (fun r =>
    let r1 := (r.span isPySpace).2
    (orElseO (litCI ("usage".toList) r1) (litCI ("consumption".toList) r1)).bind
      (fun r2 =>
        let r3 := (r2.span isSpaceColon).2
        (numGroup r3).bind (fun g =>
          let r4 := (g.2.span isPySpace).2
          (orElseO (takeLitCI ("kwh".toList) r4) (takeLitCI ("ccf".toList) r4)).map
            (fun u => (g.1, u.1)))))

/-- Shared tail `[\s:]*\$?([\d,]+\.?\d*)` of the money patterns. -/
def moneyTail (r : List Char) : Option (List Char) :=
  let r1 := (r.span isSpaceColon).2
  let r2 := (optCh '$' r1).2
  (numGroup r2).map (fun g => g.1)

/-- Pattern `total_cost`: `(?:Total\s*(?:Cost|Amount\s*Due)[\s:]*)\$?([\d,]+\.?\d*)`. -/
def matchCostAt (cs : List Char) : Option (List Char) :=
  (litCI ("total".toList) cs).bind (fun r =>
    let r1 := (r.span isPySpace).2
    orElseO ((litCI ("cost".toList) r1).bind moneyTail)
      (((litCI ("amount".toList) r1).bind (fun a =>
          litCI ("due".toList) ((a.span isPySpace).2))).bind moneyTail))

/-- Quantified digits `\d{1,2}` followed in the pattern by `/`: the run of digits must be fully
consumed (a leftover digit would have to match `/`) and have length 1 or 2. -/
def digits1to2 (cs : List Char) : Option (List Char × List Char) :=
  let sp := cs.span isDigitCh
  if sp.1.length = 1 || sp.1.length = 2 then some sp else none

/-- Quantified digits `\d{2,4}` followed in the pattern by `\s*-`: fully consumed, length 2–4. -/
def digits2to4Mid (cs : List Char) : Option (List Char × List Char) :=
  let sp := cs.span isDigitCh
  if 2 ≤ sp.1.length && sp.1.length ≤ 4 then some sp else none

/-- Quantified digits `\d{2,4}` at the very end of a pattern: greedy, takes up to four digits
and succeeds with at least two (trailing digits may remain unmatched). -/
def digits2to4Final (cs : List Char) : Option (List Char × List Char) :=
  let sp := cs.span isDigitCh
  if 4 ≤ sp.1.length then some (sp.1.take 4, sp.1.drop 4 ++ sp.2)
  else if 2 ≤ sp.1.length then some sp else none

/-- A date token `\d{1,2}/\d{1,2}/\d{2,4}` whose year is mid-pattern. -/
def dateTokenMid (cs : List Char) : Option (List Char × List Char) :=
  (digits1to2 cs).bind (fun m =>
    (chCon '/' m.2).bind (fun r1 =>
      (digits1to2 r1).bind (fun d =>
        (chCon '/' d.2).bind (fun r2 =>
          (digits2to4Mid r2).map (fun y =>
            (m.1 ++ '/' :: d.1 ++ '/' :: y.1, y.2))))))

/-- A date token `\d{1,2}/\d{1,2}/\d{2,4}` that ends the pattern. -/
def dateTokenFinal (cs : List Char) : Option (List Char × List Char) :=
  (digits1to2 cs).bind (fun m =>
    (chCon '/' m.2).bind (fun r1 =>
      (digits1to2 r1).bind (fun d =>
        (chCon '/' d.2).bind (fun r2 =>
          (digits2to4Final r2).map (fun y =>
            (m.1 ++ '/' :: d.1 ++ '/' :: y.1, y.2))))))

/-- Pattern `billing_period`:
`(?:Billing\s*Period|Period)[:\s]*`
`(\d{1,2}/\d{1,2}/\d{2,4}\s*-\s*\d{1,2}/\d{1,2}/\d{2,4})`.
The capture is the whole matched range, whitespace around `-` included. -/
def matchPeriodAt (cs : List Char) : Option (List Char) :=
  (orElseO
      ((litCI ("billing".toList) cs).bind (fun r =>
        litCI ("period".toList) ((r.span isPySpace).2)))
      (litCI ("period".toList) cs)).bind (fun r2 =>
    let r3 := (r2.span isSpaceColon).2
    (dateTokenMid r3).bind (fun d1 =>
      let sp1 := d1.2.span isPySpace
      (chCon '-' sp1.2).bind (fun r5 =>
        let sp2 := r5.span isPySpace
        (dateTokenFinal sp2.2).map (fun d2 =>
          d1.1 ++ sp1.1 ++ '-' :: (sp2.1 ++ d2.1)))))

/-- Pattern `due_date`: `(?:Due\s*Date|Payment\s*Due)[:\s]*(\d{1,2}/\d{1,2}/\d{2,4})`. -/
def matchDueAt (cs : List Char) : Option (List Char) :=
  (orElseO
      ((litCI ("due".toList) cs).bind (fun r =>
        litCI ("date".toList) ((r.span isPySpace).2)))
      ((litCI ("payment".toList) cs).bind (fun r =>
        litCI ("due".toList) ((r.span isPySpace).2)))).bind (fun r2 =>
    let r3 := (r2.span isSpaceColon).2
    (dateTokenFinal r3).map (fun d => d.1))

/-- Pattern `energy_charge`: `(?:Energy\s*Charge)[\s:]*\$?([\d,]+\.?\d*)`. -/
def matchEnergyAt (cs : List Char) : Option (List Char) :=
  ((litCI ("energy".toList) cs).bind (fun r =>
    litCI ("charge".toList) ((r.span isPySpace).2))).bind moneyTail

/-- Pattern `taxes`: `(?:Taxes|Tax)[\s:]*\$?([\d,]+\.?\d*)`.  `Tax` is a prefix of
`Taxes`, so when the tail fails after `Taxes` the engine retries with `Tax`;
the fallback therefore re-runs the whole tail. -/
def matchTaxAt (cs : List Char) : Option (List Char) :=
  orElseO ((litCI ("taxes".toList) cs).bind moneyTail)
    ((litCI ("tax".toList) cs).bind moneyTail)

/-- Pattern `fees`: `(?:Fees|Service\s*Fee)[\s:]*\$?([\d,]+\.?\d*)`. -/
def matchFeesAt (cs : List Char) : Option (List Char) :=
  orElseO ((litCI ("fees".toList) cs).bind moneyTail)
    (((litCI ("service".toList) cs).bind (fun r =>
        litCI ("fee".toList) ((r.span isPySpace).2))).bind moneyTail)

/-- Python `str.strip()`. -/
def stripWs (cs : List Char) : List Char :=
  ((cs.dropWhile isPySpace).reverse.dropWhile isPySpace).reverse

/-- Python `str.replace(",", "")`. -/
def stripCommas (cs : List Char) : List Char := cs.filter (fun c => c ≠ ',')

/-- Rebuild a `String` from characters. -/
def chString (cs : List Char) : String := String.mk cs

/-- Value stored for a plain text field: `match.group(1).strip()` or `None`. -/
def strFieldVal (r : Option (List Char)) : PyVal :=
  match r with
  | some v => .vStr (chString (stripWs v))
  | none => .vNone

/-- Value stored for a money field: the stripped capture with thousands
commas removed, or `None`. -/
def moneyFieldVal (r : Option (List Char)) : PyVal :=
  match r with
  | some v => .vStr (chString (stripCommas (stripWs v)))
  | none => .vNone

/-- The entries `extract_data` adds for the `total_usage` pattern: on a match
it stores the comma-stripped capture *and* a `usage_unit` entry holding group
2; on a miss it stores `None` for `total_usage` and no `usage_unit` entry. -/
def usageEntries (r : Option (List Char × List Char)) : List (String × PyVal) :=
  match r with
  | some p =>
    [("total_usage", .vStr (chString (stripCommas (stripWs p.1)))),
     ("usage_unit", .vStr (chString p.2))]
  | none => [("total_usage", .vNone)]

/-- Embedding of `extract_data` of `app.py`: one `re.search` per field of `FIELD_PATTERNS`,
entries in the dictionary's insertion order. -/
def extract_data (t : String) : List (String × PyVal) :=
  [("account_number", strFieldVal (reSearch matchAccountAt t.toList)),
   ("service_address", strFieldVal (reSearch matchServiceAt t.toList))]
  ++ usageEntries (reSearch matchUsageAt t.toList)
  ++ [("total_cost", moneyFieldVal (reSearch matchCostAt t.toList)),
      ("billing_period", strFieldVal (reSearch matchPeriodAt t.toList)),
      ("due_date", strFieldVal (reSearch matchDueAt t.toList)),
      ("energy_charge", moneyFieldVal (reSearch matchEnergyAt t.toList)),
      ("taxes", moneyFieldVal (reSearch matchTaxAt t.toList)),
      ("fees", moneyFieldVal (reSearch matchFeesAt t.toList))]

/-- Digit run to a natural number. -/
def digitsToNat (ds : List Char) : ℕ :=
  ds.foldl (fun n c => 10 * n + (c.toNat - '0'.toNat)) 0

/-- Python `float(str)` on decimal literals: optional surrounding whitespace,
optional sign, digits with an optional point, optional exponent (the inputs
reaching it here are comma-stripped digit/point captures; `inf`, `nan` and
underscore separators are outside this model's scope). -/
def parseFloat (s : String) : Option ℚ :=
  let cs := stripWs s.toList
  let signed : ℚ × List Char :=
    match cs with
    | '+' :: r => (1, r)
    | '-' :: r => (-1, r)
    | r => (1, r)
  let ipSp := signed.2.span isDigitCh
  let frSp : List Char × List Char :=
    match ipSp.2 with
    | '.' :: r => r.span isDigitCh
    | _ => ([], ipSp.2)
  let rest : List Char :=
    match ipSp.2 with
    | '.' :: _ => frSp.2
    | r => r
  if ipSp.1.isEmpty && frSp.1.isEmpty then none
  else
    let mant : ℚ :=
      (digitsToNat ipSp.1 : ℚ) + (digitsToNat frSp.1 : ℚ) / ((10 : ℚ) ^ frSp.1.length)
    match rest with
    | [] => some (signed.1 * mant)
    | e :: r =>
      if e = 'e' || e = 'E' then
        let esigned : Bool × List Char :=
          match r with
          | '+' :: rr => (false, rr)
          | '-' :: rr => (true, rr)
          | rr => (false, rr)
        let edSp := esigned.2.span isDigitCh
        if edSp.1.isEmpty || !edSp.2.isEmpty then none
        else
          let ev : ℚ := (10 : ℚ) ^ digitsToNat edSp.1
          some (signed.1 * (if esigned.1 = true then mant / ev else mant * ev))
      else none

/-- Gregorian month lengths, as validated by `datetime.date`. -/
def daysInMonth (y m : ℕ) : ℕ :=
  if m = 2 then
    (if y % 4 = 0 && (y % 100 ≠ 0 || y % 400 = 0) then 29 else 28)
  else if m = 4 || m = 6 || m = 9 || m = 11 then 30 else 31

/-- Embedding of `datetime.strptime(s, "%m/%d/%Y").date()`: one or two digit month and
day, exactly four digit year, nothing left over, ranges validated. -/
def parseDateMDY (s : String) : Option (ℕ × ℕ × ℕ) :=
  (digits1to2 s.toList).bind (fun m =>
    (chCon '/' m.2).bind (fun r1 =>
      (digits1to2 r1).bind (fun d =>
        (chCon '/' d.2).bind (fun r2 =>
          let ySp := r2.span isDigitCh
          if ySp.1.length = 4 && ySp.2.isEmpty then
            let y := digitsToNat ySp.1
            let mm := digitsToNat m.1
            let dd := digitsToNat d.1
            if 1 ≤ mm && mm ≤ 12 && 1 ≤ dd && dd ≤ daysInMonth y mm && 1 ≤ y
            then some (y, mm, dd)
            else none
          else none))))

/-- The decimal fields cleaned by the coercion loop of `clean_data`. -/
def decimalFields : List String :=
  ["total_usage", "total_cost", "energy_charge", "taxes", "fees"]

/-- Python truthiness of a stored value (`if cleaned.get(field):`). -/
def truthy : PyVal → Bool
  | .vNone => false
  | .vStr s => if s = "" then false else true
  | .vFloat q => if q = 0 then false else true
  | .vDate _ _ _ => true

/-- Python `float(value)` on a stored value; a failure (`ValueError` /
`TypeError`) is reported as `none` and caught by the caller. -/
def pyFloat : PyVal → Option ℚ
  | .vStr s => parseFloat s
  | .vFloat q => some q
  | _ => none

/-- The value a decimal field gets inside the `try`: the parsed float, or
`None` when parsing raised. -/
def coerceNum (v : PyVal) : PyVal :=
  match pyFloat v with
  | some q => .vFloat q
  | none => .vNone

/-- In-place dictionary update (`cleaned[field] = ...`). -/
def updateKey (d : List (String × PyVal)) (k : String) (v : PyVal) :
    List (String × PyVal) :=
  d.map (fun p => if p.1 = k then (k, v) else p)

/-- One iteration of the decimal-coercion loop of `clean_data`. -/
def cleanField (d : List (String × PyVal)) (f : String) : List (String × PyVal) :=
  match alookup f d with
  | some v => if truthy v then updateKey d f (coerceNum v) else d
  | none => d

/-- The `billing_period` branch of `clean_data`: when the raw period string is
truthy, split on `-`, take piece 1, strip it and parse `%m/%d/%Y`; any
`ValueError`/`IndexError` leaves `billing_date = None`.  The key is added only
when the branch runs.  (The stored period is always a string or `None` in
this pipeline.) -/
def billingStep (d : List (String × PyVal)) : List (String × PyVal) :=
  match alookup "billing_period" d with
  | some (.vStr s) =>
    if s = "" then d
    else
      d ++ [("billing_date",
        match (s.splitOn "-").get? 1 with
        | some second =>
          (match parseDateMDY (chString (stripWs second.toList)) with
           | some ymd => .vDate ymd.1 ymd.2.1 ymd.2.2
           | none => .vNone)
        | none => .vNone)]
  | _ => d

/-- Embedding of `clean_data` of `app.py`: coerce the decimal fields, then derive
`billing_date`. -/
def clean_data (d : List (String × PyVal)) : List (String × PyVal) :=
  billingStep (decimalFields.foldl cleanField d)

/-- pandas `notna` of a cell (a missing key is `NaN` in the dataframe). -/
def notnaV : Option PyVal → Bool
  | some .vNone => false
  | some _ => true
  | none => false

/-- Read a cell of a float column (values in these columns are floats or
absent once `clean_data` ran; the empty-string passthrough edge is treated in
the coercion claims). -/
def floatAt (f : String) (d : List (String × PyVal)) : Option ℚ :=
  match alookup f d with
  | some (.vFloat q) => some q
  | _ => none

/-- Guard `f in df.columns`: some record contributed the key. -/
def hasColumn (f : String) (recs : List (List (String × PyVal))) : Bool :=
  recs.any (fun d => (alookup f d).isSome)

/-- Guard `df[f].notna().any()`. -/
def anyNotna (f : String) (recs : List (List (String × PyVal))) : Bool :=
  recs.any (fun d => notnaV (alookup f d))

/-- Result of a pandas float division: a number, `NaN`, or a signed
infinity.  Only `nan` is "absent" (`isna`). -/
inductive PVal where
  | nan : PVal
  | inf : PVal
  | ninf : PVal
  | num (q : ℚ) : PVal
deriving DecidableEq

/-- IEEE semantics of `cost / usage` on two possibly-missing floats, as
evaluated by pandas: missing operands give `NaN`; a zero divisor gives a
signed infinity (or `NaN` for `0/0`) — the division is evaluated, it does
not raise. -/
def pdiv (c u : Option ℚ) : PVal :=
  match c, u with
  | some cv, some uv =>
    if uv = 0 then (if 0 < cv then .inf else if cv < 0 then .ninf else .nan)
    else .num (cv / uv)
  | _, _ => .nan

/-- pandas `isna` on a division result: infinities are present values. -/
def isNA : PVal → Bool
  | .nan => true
  | _ => false

/-- The blended-rate computation of `plot_blended_rate`: guarded by the
presence of a `billing_date` column and at least one non-missing usage and
cost; when the guard holds the whole column
`df["total_cost"] / df["total_usage"]` is computed row-wise, with no check of
individual rows; when it fails no rate is computed at all. -/
def plot_blended_rate (recs : List (List (String × PyVal))) :
    Option (List PVal) :=
  if hasColumn "billing_date" recs && anyNotna "total_usage" recs
      && anyNotna "total_cost" recs then
    some (recs.map (fun d => pdiv (floatAt "total_cost" d) (floatAt "total_usage" d)))
  else none

/-- Values of a column that are actually present (pandas skips `NaN`). -/
def presentVals (xs : List (Option ℚ)) : List ℚ := xs.filterMap id

/-- Embedding of `Series.mean()` (skipna): `NaN` on an all-missing column. -/
def pmean (xs : List (Option ℚ)) : Option ℚ :=
  if (presentVals xs).length = 0 then none
  else some ((presentVals xs).sum / ((presentVals xs).length : ℚ))

/-- Embedding of `Series.std()` with the pandas default `ddof=1` (*sample* variance,
divisor `n - 1`), expressed as a variance: `NaN` with fewer than two present
values.  The source compares `abs(x - mean)` with `2 * std`; both sides are
nonnegative, so the comparison is embedded on squares (see header). -/
def svar (xs : List (Option ℚ)) : Option ℚ :=
  if (presentVals xs).length < 2 then none
  else
    some (((presentVals xs).map (fun x =>
        (x - (presentVals xs).sum / ((presentVals xs).length : ℚ)) *
        (x - (presentVals xs).sum / ((presentVals xs).length : ℚ)))).sum /
      (((presentVals xs).length : ℚ) - 1))

/-- The `is_anomaly` column of `plot_usage_anomaly`:
`abs(df["total_usage"] - mean) > 2 * std` row-wise; any comparison involving
`NaN` (missing usage, missing mean, or a `NaN` std from `ddof=1` with one
sample) is `False`. -/
def anomalyFlags (xs : List (Option ℚ)) : List Bool :=
  xs.map (fun x? =>
    match x?, pmean xs, svar xs with
    | some x, some m, some v => decide ((x - m) * (x - m) > 4 * v)
    | _, _, _ => false)

/-- The usage column of the dataframe. -/
def usageCol (recs : List (List (String × PyVal))) : List (Option ℚ) :=
  recs.map (floatAt "total_usage")

/-- Embedding of `plot_usage_anomaly`: flags are computed only when a `billing_date`
column exists and some usage is present; otherwise nothing is computed (and
nothing raises). -/
def plot_usage_anomaly (recs : List (List (String × PyVal))) :
    Option (List Bool) :=
  if hasColumn "billing_date" recs && anyNotna "total_usage" recs then
    some (anomalyFlags (usageCol recs))
  else none

/-- Definition following the spec's words (claim C3): *population* variance,
divisor `n`, over the present usage values of the current full collection,
with at least two usable samples. -/
def specPopVar (xs : List (Option ℚ)) : Option ℚ :=
  if (presentVals xs).length < 2 then none
  else
    some (((presentVals xs).map (fun x =>
        (x - (presentVals xs).sum / ((presentVals xs).length : ℚ)) *
        (x - (presentVals xs).sum / ((presentVals xs).length : ℚ)))).sum /
      ((presentVals xs).length : ℚ))

/-- Definition following the spec's words (claim C3): the anomaly flag with
the population standard deviation, `|x - mean| > 2 * stddev_pop`, again
embedded on squares. -/
def specAnomalyFlags (xs : List (Option ℚ)) : List Bool :=
  xs.map (fun x? =>
    match x?, pmean xs, specPopVar xs with
    | some x, some m, some v => decide ((x - m) * (x - m) > 4 * v)
    | _, _, _ => false)

/-- The fixed warning emitted by `main` when a whole key column is missing. -/
def KEY_DATA_WARNING_MSG : String :=
  "Some key data (Usage or Cost) is missing from one or more bills."

/-- Validation verdict: `Ok`, or the warning actually emitted by the code. -/
inductive Verdict where
  | ok : Verdict
  | warning (msg : String) : Verdict
deriving DecidableEq

/-- The missing-key-data check of `main` (lines 300–301):
`if not df["total_usage"].notna().any() or not df["total_cost"].notna().any()`.
-/
def validate (recs : List (List (String × PyVal))) : Verdict :=
  if !anyNotna "total_usage" recs || !anyNotna "total_cost" recs then
    .warning KEY_DATA_WARNING_MSG
  else .ok

/-- The mandatory fields a warning message names: the code's single fixed
message names both `Usage` and `Cost`, so it stands for the full mandatory
set; `Ok` names none. -/
def warningFields : Verdict → List String
  | .ok => []
  | .warning m =>
    if m = KEY_DATA_WARNING_MSG then ["total_usage", "total_cost"] else []

/-- The mandatory fields absent from a coerced record. -/
def missingMandatory (d : List (String × PyVal)) : List String :=
  (if notnaV (alookup "total_usage" d) then [] else ["total_usage"])
  ++ (if notnaV (alookup "total_cost" d) then [] else ["total_cost"])

/-- Embedding of `extract_text_from_pdf`: the collaborator's outcome, with every thrown
extraction failure caught and turned into the empty string. -/
def extract_text_from_pdf (doc : Except String String) : String :=
  match doc with
  | .ok t => t
  | .error _ => ""

/-- The upload loop of `main`: for each document, extract text; when the text
is empty report and `continue` (no record); otherwise extract, clean and
append the record. -/
def processBatch (docs : List (Except String String)) :
    List (List (String × PyVal)) :=
  docs.filterMap (fun doc =>
    if extract_text_from_pdf doc = "" then none
    else some (clean_data (extract_data (extract_text_from_pdf doc))))

/-- Scenario text of the spec (claims C6, C1): usage, unit and cost. -/
def textScenario : String := "Total Usage: 1,234.5 kWh\nTotal Cost: $156.78"

/-- A bill text with zero usage and a billing period (claim C1). -/
def textZeroUsage : String :=
  "Total Usage: 0 kWh\nTotal Cost: $5\nBilling Period: 1/1/2023 - 1/31/2023"

/-- A bill text whose cost capture consists of a lone comma (claim C7). -/
def textCommaCost : String := "Total Cost: ,"

/-- A text with no recognizable fields (claim C9). -/
def textNoFields : String := "hello"

/-- A usage-only text with a CCF unit (claim C10). -/
def textUnitOnly : String := "Total Usage: 7 CCF"

/-- The record of the scenario text after extraction and coercion. -/
def recScenario : List (String × PyVal) := clean_data (extract_data textScenario)

/-- The record of the zero-usage text after extraction and coercion. -/
def recZeroUsage : List (String × PyVal) := clean_data (extract_data textZeroUsage)

/-- Usage column of the spec's three-record anomaly scenario (claim C2). -/
def usageThree : List (Option ℚ) := [some 100, some 102, some 500]

/-- A six-record usage column separating sample from population flags
(claim C3): mean 20, squared deviations summing to 22. -/
def usageSix : List (Option ℚ) :=
  [some 24, some 18, some 19, some 19, some 20, some 20]

/-- An eleven-record usage column whose last record is flagged (claim C3). -/
def usageSpike : List (Option ℚ) :=
  [some 0, some 0, some 0, some 0, some 0, some 0, some 0, some 0, some 0,
   some 0, some 10]

/-! ### Dictionary lemmas -/

theorem alookup_append_some (k : String) (xs ys : List (String × PyVal)) (v : PyVal)
    (h : alookup k xs = some v) : alookup k (xs ++ ys) = some v := by
  induction xs with
  | nil => exact absurd h (by simp [alookup])
  | cons p rest ih =>
    rw [List.cons_append]
    simp only [alookup] at h ⊢
    by_cases hp : p.1 = k
    · rw [if_pos hp] at h ⊢; exact h
    · rw [if_neg hp] at h ⊢; exact ih h

theorem alookup_updateKey_self (d : List (String × PyVal)) (k : String) (v w : PyVal)
    (h : alookup k d = some w) : alookup k (updateKey d k v) = some v := by
  induction d with
  | nil => exact absurd h (by simp [alookup])
  | cons p rest ih =>
    simp only [updateKey, List.map_cons] at *
    by_cases hp : p.1 = k
    · rw [if_pos hp]; simp [alookup]
    · rw [if_neg hp]
      simp only [alookup, if_neg hp] at h ⊢
      exact ih h

theorem alookup_updateKey_ne (d : List (String × PyVal)) (f k : String) (v : PyVal)
    (h : k ≠ f) : alookup k (updateKey d f v) = alookup k d := by
  induction d with
  | nil => rfl
  | cons p rest ih =>
    simp only [updateKey, List.map_cons, alookup]
    by_cases hp : p.1 = f
    · have hfk : ¬ (f = k) := fun hh => h hh.symm
      have hpk : ¬ (p.1 = k) := by rw [hp]; exact hfk
      rw [if_pos hp]
      simp only [alookup, if_neg hfk, if_neg hpk]
      exact ih
    · rw [if_neg hp]
      by_cases hpk : p.1 = k
      · simp only [alookup, if_pos hpk]
      · simp only [alookup, if_neg hpk]
        exact ih

theorem alookup_cleanField_ne (d : List (String × PyVal)) (f k : String)
    (h : k ≠ f) : alookup k (cleanField d f) = alookup k d := by
  unfold cleanField
  split
  · split
    · exact alookup_updateKey_ne d f k _ h
    · rfl
  · rfl

theorem alookup_cleanField_self (d : List (String × PyVal)) (f : String) (v : PyVal)
    (h : alookup f d = some v) :
    alookup f (cleanField d f) = some (if truthy v then coerceNum v else v) := by
  unfold cleanField
  split
  · next w heq =>
    rw [h] at heq
    obtain rfl : v = w := Option.some.inj heq
    by_cases ht : truthy v
    · rw [if_pos ht, if_pos ht]; exact alookup_updateKey_self d f (coerceNum v) v h
    · rw [if_neg ht, if_neg ht]; exact h
  · next heq =>
    rw [h] at heq
    exact absurd heq (by simp)

theorem alookup_billingStep_some (d : List (String × PyVal)) (k : String) (v : PyVal)
    (h : alookup k d = some v) : alookup k (billingStep d) = some v := by
  unfold billingStep
  split
  · split
    · exact h
    · exact alookup_append_some k d _ v h
  · exact h

theorem alookup_clean_decimal (d : List (String × PyVal)) (f : String)
    (hf : f ∈ decimalFields) (v : PyVal) (h : alookup f d = some v) :
    alookup f (clean_data d) = some (if truthy v then coerceNum v else v) := by
  refine alookup_billingStep_some _ f _ ?_
  have hfold : decimalFields.foldl cleanField d =
      cleanField (cleanField (cleanField (cleanField
        (cleanField d "total_usage") "total_cost") "energy_charge") "taxes") "fees" := rfl
  show alookup f (decimalFields.foldl cleanField d) = _
  rw [hfold]
  simp only [decimalFields, List.mem_cons, List.not_mem_nil, or_false] at hf
  rcases hf with rfl | rfl | rfl | rfl | rfl
  · rw [alookup_cleanField_ne _ _ _ (by decide), alookup_cleanField_ne _ _ _ (by decide),
      alookup_cleanField_ne _ _ _ (by decide), alookup_cleanField_ne _ _ _ (by decide)]
    exact alookup_cleanField_self d _ v h
  · rw [alookup_cleanField_ne _ _ _ (by decide), alookup_cleanField_ne _ _ _ (by decide),
      alookup_cleanField_ne _ _ _ (by decide)]
    refine alookup_cleanField_self _ _ v ?_
    rw [alookup_cleanField_ne _ _ _ (by decide)]
    exact h
  · rw [alookup_cleanField_ne _ _ _ (by decide), alookup_cleanField_ne _ _ _ (by decide)]
    refine alookup_cleanField_self _ _ v ?_
    rw [alookup_cleanField_ne _ _ _ (by decide), alookup_cleanField_ne _ _ _ (by decide)]
    exact h
  · rw [alookup_cleanField_ne _ _ _ (by decide)]
    refine alookup_cleanField_self _ _ v ?_
    rw [alookup_cleanField_ne _ _ _ (by decide), alookup_cleanField_ne _ _ _ (by decide),
      alookup_cleanField_ne _ _ _ (by decide)]
    exact h
  · refine alookup_cleanField_self _ _ v ?_
    rw [alookup_cleanField_ne _ _ _ (by decide), alookup_cleanField_ne _ _ _ (by decide),
      alookup_cleanField_ne _ _ _ (by decide), alookup_cleanField_ne _ _ _ (by decide)]
    exact h

/-! ### Shape of the extracted decimal fields -/

theorem alookup_extract_usage (t : String) :
    alookup "total_usage" (extract_data t)
      = some (moneyFieldVal ((reSearch matchUsageAt t.toList).map Prod.fst)) := by
  unfold extract_data
  cases hu : reSearch matchUsageAt t.toList with
  | none => rfl
  | some p => rfl

theorem alookup_extract_cost (t : String) :
    alookup "total_cost" (extract_data t)
      = some (moneyFieldVal (reSearch matchCostAt t.toList)) := by
  unfold extract_data
  cases hu : reSearch matchUsageAt t.toList with
  | none => rfl
  | some p => rfl

theorem alookup_extract_energy (t : String) :
    alookup "energy_charge" (extract_data t)
      = some (moneyFieldVal (reSearch matchEnergyAt t.toList)) := by
  unfold extract_data
  cases hu : reSearch matchUsageAt t.toList with
  | none => rfl
  | some p => rfl

theorem alookup_extract_taxes (t : String) :
    alookup "taxes" (extract_data t)
      = some (moneyFieldVal (reSearch matchTaxAt t.toList)) := by
  unfold extract_data
  cases hu : reSearch matchUsageAt t.toList with
  | none => rfl
  | some p => rfl

theorem alookup_extract_fees (t : String) :
    alookup "fees" (extract_data t)
      = some (moneyFieldVal (reSearch matchFeesAt t.toList)) := by
  unfold extract_data
  cases hu : reSearch matchUsageAt t.toList with
  | none => rfl
  | some p => rfl

theorem moneyFieldVal_shape (r : Option (List Char)) :
    moneyFieldVal r = PyVal.vNone ∨ ∃ s, moneyFieldVal r = PyVal.vStr s := by
  cases r with
  | none => exact Or.inl rfl
  | some v => exact Or.inr ⟨_, rfl⟩

/-- C5: for every collection with fewer than two records carrying a present
`total_usage`, the anomaly computation of `plot_usage_anomaly` marks every
record not anomalous (the `ddof=1` standard deviation is `NaN` with at most
one sample, and every comparison against `NaN` is false); nothing raises. -/
theorem C5_degenerate (xs : List (Option ℚ)) (h : (presentVals xs).length < 2) :
    ∀ b ∈ anomalyFlags xs, b = false := by
  intro b hb
  have hv : svar xs = none := by unfold svar; rw [if_pos h]
  unfold anomalyFlags at hb
  rw [List.mem_map] at hb
  obtain ⟨x?, -, rfl⟩ := hb
  rw [hv]
  cases x? <;> cases pmean xs <;> rfl

/-- C8: the upload loop treats a document whose extracted text is the empty
string exactly like one whose extraction raised: `extract_text_from_pdf`
turns the failure into `""`, the document contributes no record, and the
remaining documents of the batch are processed unchanged. -/
theorem C8_empty_as_failure (pre post : List (Except String String)) (e : String) :
    processBatch (pre ++ Except.error e :: post) = processBatch pre ++ processBatch post
    ∧ processBatch (pre ++ Except.ok "" :: post) = processBatch pre ++ processBatch post
    ∧ extract_text_from_pdf (Except.error e) = "" := by
  refine ⟨?_, ?_, rfl⟩ <;>
    simp [processBatch, List.filterMap_append, List.filterMap_cons, extract_text_from_pdf]

/-- C9: the missing-key-data check of `main`, applied to a single coerced
record, answers `Ok` exactly when both `total_usage` and `total_cost` are
present; otherwise it emits its fixed warning, whose named fields (`Usage`
and `Cost`) contain every absent mandatory field. -/
theorem C9_validator (d : List (String × PyVal)) :
    (validate [d] = Verdict.ok ↔
      (notnaV (alookup "total_usage" d) = true ∧ notnaV (alookup "total_cost" d) = true))
    ∧ ∀ f, f ∈ missingMandatory d → f ∈ warningFields (validate [d]) := by
  have hu : anyNotna "total_usage" [d] = notnaV (alookup "total_usage" d) := by
    simp [anyNotna]
  have hc : anyNotna "total_cost" [d] = notnaV (alookup "total_cost" d) := by
    simp [anyNotna]
  unfold validate missingMandatory
  rw [hu, hc]
  cases hnu : notnaV (alookup "total_usage" d) <;>
    cases hnc : notnaV (alookup "total_cost" d) <;>
      simp [warningFields]

/-- C10: the extracted mapping contains a `usage_unit` entry exactly when the
`total_usage` pattern matched; on a miss `total_usage` is bound to the absent
value and no `usage_unit` key exists at all, and on a match `usage_unit`
holds group 2, captured jointly with the numeric value. -/
theorem C10_usage_unit (t : String) :
    (reSearch matchUsageAt t.toList = none →
        alookup "usage_unit" (extract_data t) = none ∧
        alookup "total_usage" (extract_data t) = some PyVal.vNone)
    ∧ ∀ v u, reSearch matchUsageAt t.toList = some (v, u) →
        alookup "usage_unit" (extract_data t) = some (PyVal.vStr (chString u)) ∧
        alookup "total_usage" (extract_data t) =
          some (PyVal.vStr (chString (stripCommas (stripWs v)))) := by
  constructor
  · intro h
    unfold extract_data
    rw [h]
    exact ⟨rfl, rfl⟩
  · intro v u h
    unfold extract_data
    rw [h]
    exact ⟨rfl, rfl⟩

/-- C7 (amended): for every input text and decimal field, the
extract-then-coerce pipeline yields the absent value, or a float that is
exactly the parse of the stored raw capture (so zero is never substituted
and nothing propagates an error) — except that a capture consisting only of
commas is stored as the empty string, which the truthiness guard of
`clean_data` passes through unchanged instead of making it absent. -/
theorem C7_coercion (t : String) (f : String) (hf : f ∈ decimalFields) :
    alookup f (clean_data (extract_data t)) = some PyVal.vNone
    ∨ alookup f (clean_data (extract_data t)) = some (PyVal.vStr "")
    ∨ ∃ s q, alookup f (extract_data t) = some (PyVal.vStr s) ∧ parseFloat s = some q ∧
        alookup f (clean_data (extract_data t)) = some (PyVal.vFloat q) := by
  have hval : ∃ v, alookup f (extract_data t) = some v ∧
      (v = PyVal.vNone ∨ ∃ s, v = PyVal.vStr s) := by
    have hf2 := hf
    simp only [decimalFields, List.mem_cons, List.not_mem_nil, or_false] at hf2
    rcases hf2 with rfl | rfl | rfl | rfl | rfl
    · exact ⟨_, alookup_extract_usage t, moneyFieldVal_shape _⟩
    · exact ⟨_, alookup_extract_cost t, moneyFieldVal_shape _⟩
    · exact ⟨_, alookup_extract_energy t, moneyFieldVal_shape _⟩
    · exact ⟨_, alookup_extract_taxes t, moneyFieldVal_shape _⟩
    · exact ⟨_, alookup_extract_fees t, moneyFieldVal_shape _⟩
  obtain ⟨v, hv, hshape⟩ := hval
  have hcl := alookup_clean_decimal (extract_data t) f hf v hv
  rcases hshape with rfl | ⟨s, rfl⟩
  · left
    rw [hcl]
    rfl
  · by_cases hs : s = ""
    · subst hs
      right; left
      rw [hcl]
      rfl
    · have ht : truthy (PyVal.vStr s) = true := by simp [truthy, hs]
      rw [if_pos ht] at hcl
      cases hp : parseFloat s with
      | none =>
        left
        rw [hcl]
        simp [coerceNum, pyFloat, hp]
      | some q =>
        right; right
        refine ⟨s, q, hv, hp, ?_⟩
        rw [hcl]
        simp [coerceNum, pyFloat, hp]

/-- C1 (amended): whenever `plot_blended_rate` computes rates (its guard
holds), each record's rate is `totalCost / totalUsage` when usage is present
and positive; the rate is `NaN` (absent) when usage or cost is missing; but
with usage exactly zero and a positive cost the evaluated division yields
`inf`, a present value — the zero-divisor case is *not* skipped. -/
theorem C1_blended_rate (recs : List (List (String × PyVal))) (rates : List PVal)
    (h : plot_blended_rate recs = some rates) (i : ℕ) (d : List (String × PyVal))
    (hd : recs[i]? = some d) :
    (∀ u c : ℚ, floatAt "total_usage" d = some u → 0 < u →
        floatAt "total_cost" d = some c → rates[i]? = some (PVal.num (c / u)))
    ∧ ((floatAt "total_usage" d = none ∨ floatAt "total_cost" d = none) →
        rates[i]? = some PVal.nan)
    ∧ (∀ c : ℚ, floatAt "total_usage" d = some 0 → floatAt "total_cost" d = some c →
        0 < c → rates[i]? = some PVal.inf) := by
  unfold plot_blended_rate at h
  split at h
  · obtain rfl := Option.some.inj h
    have hg : (recs.map (fun d => pdiv (floatAt "total_cost" d) (floatAt "total_usage" d)))[i]?
        = some (pdiv (floatAt "total_cost" d) (floatAt "total_usage" d)) := by
      rw [List.getElem?_map, hd]
      rfl
    refine ⟨?_, ?_, ?_⟩
    · intro u c hu hupos hc
      rw [hg, hu, hc]
      simp [pdiv, hupos.ne']
    · intro hor
      rw [hg]
      rcases hor with hn | hn
      · rw [hn]
        cases hcc : floatAt "total_cost" d <;> rfl
      · rw [hn]
        cases huu : floatAt "total_usage" d <;> rfl
    · intro c h0 hc hcpos
      rw [hg, h0, hc]
      simp [pdiv, hcpos]
  · exact absurd h (by simp)

/-- C3 (amended): the `is_anomaly` flag of a usage-bearing record in a
collection with at least two present usages holds exactly when the squared
deviation from the collection mean, scaled by `n - 1`, exceeds four times the
sum of squared deviations — that is, `|usage - mean| > 2 * std` with the
*sample* standard deviation (pandas `ddof=1`, divisor `n - 1`), not the
population one; a record with absent usage is never flagged. -/
theorem C3_sample_std (xs : List (Option ℚ)) (i : ℕ) :
    (∀ x : ℚ, xs[i]? = some (some x) → 2 ≤ (presentVals xs).length →
      ((anomalyFlags xs)[i]? = some true ↔
        (x - (presentVals xs).sum / ((presentVals xs).length : ℚ)) *
          (x - (presentVals xs).sum / ((presentVals xs).length : ℚ)) *
          (((presentVals xs).length : ℚ) - 1) >
        4 * ((presentVals xs).map (fun y =>
          (y - (presentVals xs).sum / ((presentVals xs).length : ℚ)) *
          (y - (presentVals xs).sum / ((presentVals xs).length : ℚ)))).sum))
    ∧ (xs[i]? = some none → (anomalyFlags xs)[i]? = some false) := by
  constructor
  · intro x hx hlen
    have hne0 : ¬ ((presentVals xs).length = 0) := by omega
    have hnlt : ¬ ((presentVals xs).length < 2) := by omega
    have hm : pmean xs
        = some ((presentVals xs).sum / ((presentVals xs).length : ℚ)) := by
      unfold pmean; rw [if_neg hne0]
    have hv : svar xs = some (((presentVals xs).map (fun y =>
        (y - (presentVals xs).sum / ((presentVals xs).length : ℚ)) *
        (y - (presentVals xs).sum / ((presentVals xs).length : ℚ)))).sum /
          (((presentVals xs).length : ℚ) - 1)) := by
      unfold svar; rw [if_neg hnlt]
    have hpos : (0:ℚ) < ((presentVals xs).length : ℚ) - 1 := by
      have h2 : (2:ℚ) ≤ ((presentVals xs).length : ℚ) := by exact_mod_cast hlen
      linarith
    unfold anomalyFlags
    rw [List.getElem?_map, hx, Option.map_some']
    rw [hm, hv]
    simp only [Option.some.injEq, decide_eq_true_eq]
    rw [gt_iff_lt, gt_iff_lt, ← mul_div_assoc, div_lt_iff₀ hpos]
  · intro hx
    unfold anomalyFlags
    rw [List.getElem?_map, hx, Option.map_some']

/-!
Concrete evaluations.  Batteries marks the `Rat` field operations
`@[irreducible]`; inside this section they are restored to the default
transparency so that closed rational computations reduce, which the kernel
does anyway.
-/

section ConcreteEvaluation

set_option allowUnsafeReducibility true

attribute [local semireducible] Rat.mul Rat.inv Rat.add Rat.sub Rat.div

set_option maxRecDepth 100000

/-- C1 (counterexample): a record extracted from a bill with usage `0`, cost
`$5` and a billing period passes the guard of `plot_blended_rate`, whose
division is evaluated at the zero usage and yields `inf` — a present
(non-`NaN`) blended rate, where the claim demands an absent one. -/
theorem C1_zero_usage_rate_present :
    floatAt "total_usage" recZeroUsage = some 0
    ∧ plot_blended_rate [recZeroUsage] = some [PVal.inf]
    ∧ isNA PVal.inf = false := by
  refine ⟨by decide, by decide, rfl⟩

/-- C1 (witness): the amended characterisation applied to the zero-usage
record, concluding the concrete `inf` rate. -/
theorem C1_blended_rate_witness :
    ∃ rates, plot_blended_rate [recZeroUsage] = some rates
      ∧ rates[0]? = some PVal.inf := by
  have h1 : plot_blended_rate [recZeroUsage] = some [PVal.inf] := by decide
  refine ⟨[PVal.inf], h1, ?_⟩
  exact (C1_blended_rate [recZeroUsage] [PVal.inf] h1 0 recZeroUsage rfl).2.2 5
    (by decide) (by decide) (by decide)

/-- C2 (counterexample): on usages `[100, 102, 500]` the anomaly computation
does *not* flag the 500-usage record (the claim asserts it does): the
deviation 266 is below twice the standard deviation under the sample and
even under the population divisor. -/
theorem C2_no_flag_at_500 : ¬ (anomalyFlags usageThree = [false, false, true]) := by
  decide

/-- C2 (amended): on usages `[100, 102, 500]` the computation flags all
three records as not anomalous. -/
theorem C2_all_unflagged : anomalyFlags usageThree = [false, false, false] := by
  decide

/-- C3 (counterexample): on `usageSix` the code's flag (sample standard
deviation, pandas `ddof=1`) and the spec's flag (population standard
deviation) disagree at the first record, so the flag does not equal the
population predicate. -/
theorem C3_pop_vs_sample :
    (anomalyFlags usageSix)[0]? = some false
    ∧ (specAnomalyFlags usageSix)[0]? = some true
    ∧ ¬ (anomalyFlags usageSix = specAnomalyFlags usageSix) := by
  refine ⟨by decide, by decide, by decide⟩

/-- C3 (witness): the amended characterisation applied to `usageSpike`,
whose last record is flagged by the sample-deviation rule. -/
theorem C3_sample_std_witness : (anomalyFlags usageSpike)[10]? = some true := by
  have h := (C3_sample_std usageSpike 10).1 10 (by decide) (by decide)
  exact h.mpr (by decide)

/-- C5 (witness): a two-record collection with a single present usage has
fewer than two usable samples and every flag false. -/
theorem C5_degenerate_witness :
    (presentVals [some (5:ℚ), none]).length < 2
    ∧ ∀ b ∈ anomalyFlags [some (5:ℚ), none], b = false :=
  ⟨by decide, C5_degenerate [some (5:ℚ), none] (by decide)⟩

/-- C6 (counterexample): on the scenario text the record carries no
`blended_rate` at all — extraction and coercion add no such key, and
`plot_blended_rate` computes nothing because no billing date was extracted —
contradicting the claimed `blendedRate = 156.78 / 1234.5`. -/
theorem C6_no_blended_rate :
    alookup "blended_rate" recScenario = none
    ∧ hasColumn "billing_date" [recScenario] = false
    ∧ plot_blended_rate [recScenario] = none := by
  refine ⟨by decide, by decide, by decide⟩

/-- C6 (amended): the scenario text yields `totalUsage = 1234.5` with unit
`kWh` and `totalCost = 156.78`, the validator answers `Ok`, and the cost per
usage ratio is `2613/20575 ≈ 0.1270` — but no blended rate is attached to
the record, because the collection lacks a billing date. -/
theorem C6_scenario :
    alookup "total_usage" recScenario = some (PyVal.vFloat (2469/2))
    ∧ alookup "usage_unit" recScenario = some (PyVal.vStr "kWh")
    ∧ alookup "total_cost" recScenario = some (PyVal.vFloat (7839/50))
    ∧ validate [recScenario] = Verdict.ok
    ∧ plot_blended_rate [recScenario] = none
    ∧ pdiv (floatAt "total_cost" recScenario) (floatAt "total_usage" recScenario)
        = PVal.num (2613/20575) := by
  refine ⟨by decide, by decide, by decide, by decide, by decide, by decide⟩

/-- C7 (counterexample): on the text `"Total Cost: ,"` the cost capture is a
lone comma, stored comma-stripped as the empty string; coercion passes it
through unchanged — the result is neither a parsed float nor the absent
value. -/
theorem C7_empty_passthrough :
    alookup "total_cost" (clean_data (extract_data textCommaCost)) = some (PyVal.vStr "")
    ∧ PyVal.vStr "" ≠ PyVal.vNone
    ∧ ∀ q : ℚ, PyVal.vStr "" ≠ PyVal.vFloat q := by
  refine ⟨by decide, by decide, fun q h => PyVal.noConfusion h⟩

/-- C7 (witness): the coercion trichotomy instantiated at the scenario text
and the `total_cost` field. -/
theorem C7_coercion_witness :
    alookup "total_cost" (clean_data (extract_data textScenario)) = some PyVal.vNone
    ∨ alookup "total_cost" (clean_data (extract_data textScenario)) = some (PyVal.vStr "")
    ∨ ∃ s q, alookup "total_cost" (extract_data textScenario) = some (PyVal.vStr s)
        ∧ parseFloat s = some q
        ∧ alookup "total_cost" (clean_data (extract_data textScenario))
            = some (PyVal.vFloat q) :=
  C7_coercion textScenario "total_cost" (by decide)

/-- C9 (witness): the all-absent record extracted from unrecognisable text
is not `Ok`, and the warning names both mandatory fields. -/
theorem C9_validator_witness :
    validate [clean_data (extract_data textNoFields)] ≠ Verdict.ok
    ∧ "total_usage" ∈ warningFields (validate [clean_data (extract_data textNoFields)])
    ∧ "total_cost" ∈ warningFields (validate [clean_data (extract_data textNoFields)]) := by
  refine ⟨by decide, ?_, ?_⟩
  · exact (C9_validator (clean_data (extract_data textNoFields))).2 "total_usage" (by decide)
  · exact (C9_validator (clean_data (extract_data textNoFields))).2 "total_cost" (by decide)

/-- C10 (witness): on a text with no usage the mapping has no `usage_unit`
key and binds `total_usage` to the absent value; on a CCF bill the unit entry
holds the jointly captured token. -/
theorem C10_usage_unit_witness :
    (alookup "usage_unit" (extract_data textNoFields) = none
      ∧ alookup "total_usage" (extract_data textNoFields) = some PyVal.vNone)
    ∧ alookup "usage_unit" (extract_data textUnitOnly) = some (PyVal.vStr "CCF") := by
  constructor
  · exact (C10_usage_unit textNoFields).1 (by decide)
  · have h : reSearch matchUsageAt textUnitOnly.toList
        = some (("7".toList), ("CCF".toList)) := by decide
    exact (((C10_usage_unit textUnitOnly).2 ("7".toList) ("CCF".toList)) h).1

end ConcreteEvaluation
